import Mathlib

/-!
# Verification of the YouTube summarizer pipeline (`src/app.py`)

Shallow embedding of the pure logic of `app.py` — the video-id extractor,
the transcript formatter, the prompt builder — together with an explicit
model of the page run (the top section plus the generate-summary button
handler), where the three network collaborators (transcript fetch,
metadata fetch, generative model) and the CSV write are parameters of a
`World`.  Python exceptions raised by a collaborator are modelled as
`Except.error`; an exception escaping the script (uncaught) is the
`Except.error` result of `runApp` itself.
-/

namespace YTSum

/-! ## Identifier extractor — `extract_video_id` (app.py lines 48–59)

The Python body is `re.search(r'(?:v=|\/)([0-9A-Za-z_-]{11}).*', url)`,
returning group 1 of the leftmost match, else `None`.  `.*` always
succeeds, `{11}` is an exact count, and at a given start position the
two alternatives `v=` and `/` are mutually exclusive on the first
character, so the regex' leftmost-match semantics is: scan positions
left to right; at each position, after a literal `v=` or `/`, try to
read exactly 11 characters of the class `[0-9A-Za-z_-]`.  The
`try/except` wrapper is dead code (`re.search` does not raise on string
input); the embedding is total. -/

/-- The character class `[0-9A-Za-z_-]` of the Python regex. -/
def isIdChar (c : Char) : Bool :=
  c.isUpper || c.isLower || c.isDigit || c = '-' || c = '_'

/-- Read exactly `n` characters of the id class from the front of `l`
(the `{11}` part of the regex, with `n` the remaining count). -/
def grabN : Nat → List Char → Option (List Char)
  | 0, _ => some []
  | _ + 1, [] => none
  | n + 1, c :: rest =>
      if isIdChar c then Option.map (List.cons c) (grabN n rest) else none

/-- Attempt the pattern `(?:v=|\/)([0-9A-Za-z_-]{11})` at the head of `l`. -/
def matchHere : List Char → Option (List Char)
  | [] => none
  | [c] => if c = '/' then grabN 11 [] else none
  | c₁ :: c₂ :: rest =>
      if c₁ = 'v' && c₂ = '=' then grabN 11 rest
      else if c₁ = '/' then grabN 11 (c₂ :: rest)
      else none

/-- Leftmost-match scan of `re.search`: try `matchHere` at every
position, left to right. -/
def searchFrom : List Char → Option (List Char)
  | [] => none
  | c :: rest => (matchHere (c :: rest)).orElse fun _ => searchFrom rest

/-- Embedding of `extract_video_id` (app.py lines 48–59): group 1 of the leftmost
match, or `None`. -/
def extract_video_id (youtube_url : String) : Option String :=
  (searchFrom youtube_url.data).map fun l => String.mk l

/-! ## Transcript formatter — `extract_transcript_details` (app.py lines 111–126) -/

/-- One raw transcript segment as delivered by the transcript service.
`start` is the truncated integer start offset `int(item['start'])` of
app.py line 113 (whole seconds, nonnegative); `text` is the segment
text, an arbitrary string. -/
structure TranscriptSegment where
  start : Nat
  text : String
deriving DecidableEq

/-- One row of the formatted transcript table (app.py lines 118–121). -/
structure DisplayRow where
  timestamp : String
  text : String
deriving DecidableEq

/-- Python `f"{n:02d}"` for a nonnegative integer: decimal digits,
zero-padded on the left to width at least 2 (wider numbers print in
full). -/
def pad2 (n : Nat) : String :=
  if n < 10 then "0" ++ toString n else toString n

/-- The timestamp `f"{minutes:02d}:{seconds:02d}"` with
`minutes = start_time // 60`, `seconds = start_time % 60`
(app.py lines 115–117). -/
def timestampOf (start_time : Nat) : String :=
  pad2 (start_time / 60) ++ ":" ++ pad2 (start_time % 60)

/-- The `for item in transcript_data: formatted_transcript.append({...})`
loop of app.py lines 111–121: a left fold that appends one display row
per segment to an initially empty list. -/
def formatTranscript (transcript_data : List TranscriptSegment) : List DisplayRow :=
  transcript_data.foldl
    (fun acc item =>
      acc ++ [{ timestamp := timestampOf item.start, text := item.text }])
    []

/-- The flattening `" ".join(item["text"] for item in transcript_data)` of app.py
line 124.  Python `sep.join(xs)` is `String.intercalate sep xs`. -/
def fullTranscript (transcript_data : List TranscriptSegment) : String :=
  String.intercalate " " (transcript_data.map (·.text))

/-- The transcript export string of app.py line 258:
`"\n".join([f"{item['timestamp']}: {item['text']}" for item in formatted_transcript])`. -/
def transcriptExport (formatted_transcript : List DisplayRow) : String :=
  String.intercalate "\n"
    (formatted_transcript.map fun item => item.timestamp ++ ": " ++ item.text)

/-- Reference join, following the words of spec §4.2: the texts joined
with a single separator between consecutive elements, original order
preserved, nothing else added.  Stated from the spec to be compared with
the `String.intercalate` used by the embedding. -/
def joinSep (sep : String) : List String → String
  | [] => ""
  | [x] => x
  | x :: y :: rest => x ++ sep ++ joinSep sep (y :: rest)

/-! ## Prompt construction — `generate_gemini_content` (app.py lines 132–147)
and the `prompt_template` argument of the call site (lines 228–236) -/

/-- The fixed `quick` instruction of app.py line 140 (the part of the
f-string before the interpolated transcript). -/
def quickInstruction : String :=
  "Provide a concise 2-3 sentence summary of the main points from this video transcript: "

/-- The fixed `chapter` instruction of app.py line 142. -/
def chapterInstruction : String :=
  "Break this video transcript into logical chapters/sections with timestamps and brief descriptions: "

/-- The `prompt_template` argument passed at the call site, app.py
lines 230–234: a triple-quoted string whose continuation lines carry the
source file's 16-space indentation, ending with two newlines. -/
def detailedTemplate : String :=
  "Provide a comprehensive summary of this video transcript, including:\n                1. Main topics and key points\n                2. Important details and examples\n                3. Key takeaways\n                Please format the summary in clear paragraphs with proper headings:\n\n"

/-- The prompt dispatch of app.py lines 139–144: `quick` and `chapter`
use their fixed f-strings, anything else falls through to
`prompt_template + transcript_text`. -/
def buildPrompt (transcript_text prompt_template summary_type : String) : String :=
  if summary_type = "quick" then quickInstruction ++ transcript_text
  else if summary_type = "chapter" then chapterInstruction ++ transcript_text
  else prompt_template ++ transcript_text

/-! ## Pipeline model — the page run (app.py lines 175–264)

The three network collaborators and the CSV write are parameters
(`World`).  A collaborator that raises is an `Except.error` carrying the
exception text.  `st.error` / `st.warning` / `st.success` calls are
collected as `Message`s.  An exception that escapes the script uncaught
is the `Except.error` result of `runApp`. -/

/-- A user-visible Streamlit message. -/
inductive Message where
  | error (s : String)
  | warning (s : String)
  | success (s : String)
deriving DecidableEq

/-- The metadata dictionary built in app.py lines 73–79. -/
structure VideoMetadata where
  title : String
  channel : String
  duration : Nat
  views : Nat
  upload_date : String
deriving DecidableEq

/-- Behaviour of the external collaborators for one run. -/
structure World where
  transcriptFetch : Except String (List TranscriptSegment)
  metadataFetch : Except String VideoMetadata
  gemini : String → Except String String
  saveWrite : Except String Unit

/-- An uncaught Python exception escaping the script. -/
inductive PyExc where
  | typeError (msg : String)
  | nameError (msg : String)
deriving DecidableEq

/-- Final page state of one run with the generate button pressed. -/
structure UIState where
  messages : List Message
  summaryShown : Option String
  summaryDownload : Option (String × String)
  transcriptDownload : Option (String × String)
  saveCalled : Bool
deriving DecidableEq

/-- Python `str(...)` on an optional identifier (an unset `Option` is a
Python `None`, which formats as `"None"` in an f-string). -/
def pyStr : Option String → String
  | none => "None"
  | some s => s

/-- Embedding of `extract_video_metadata` (app.py lines 61–82): returns the metadata
dictionary, or on any exception shows a warning and returns `None`. -/
def extract_video_metadata (w : World) : List Message × Option VideoMetadata :=
  match w.metadataFetch with
  | Except.ok m => ([], some m)
  | Except.error e =>
      ([Message.warning ("Could not fetch video metadata: " ++ e)], none)

/-- Embedding of `extract_transcript_details` (app.py lines 84–130).  Note the three
distinct returns of the Python function: bare `None` when no video id
was extracted (line 93), the pair `(full_transcript,
formatted_transcript)` on success (line 126), and `(None, None)` from
the `except` clause (line 130).  The bare `None` is the outer `none`. -/
def extract_transcript_details (youtube_video_url : String) (w : World) :
    List Message × Option (Option String × Option (List DisplayRow)) :=
  match extract_video_id youtube_video_url with
  | none => ([Message.error "Could not extract video ID from URL"], none)
  | some _ =>
      match w.transcriptFetch with
      | Except.error e =>
          ([Message.error ("Error extracting transcript: " ++ e)],
           some (none, none))
      | Except.ok transcript_data =>
          ([], some (some (fullTranscript transcript_data),
                     some (formatTranscript transcript_data)))

/-- Embedding of `generate_gemini_content` (app.py lines 132–150): builds the prompt,
calls the model, and on any exception shows an error and returns `None`. -/
def generate_gemini_content (transcript_text prompt_template summary_type : String)
    (w : World) : List Message × Option String :=
  match w.gemini (buildPrompt transcript_text prompt_template summary_type) with
  | Except.ok t => ([], some t)
  | Except.error e =>
      ([Message.error ("Error generating summary: " ++ e)], none)

/-- Embedding of `save_summary` (app.py lines 152–173): appends a row to the CSV log,
returning `True`, or on any exception shows an error and returns
`False`.  The row content is presentation-level and not modelled. -/
def save_summary (summary video_id : String) (metadata : VideoMetadata)
    (w : World) : List Message × Bool :=
  match w.saveWrite with
  | Except.ok _ => ([], true)
  | Except.error e => ([Message.error ("Error saving summary: " ++ e)], false)

/-- The page state when the handler stops before showing a summary. -/
def noSummaryState (msgs : List Message) : UIState :=
  { messages := msgs, summaryShown := none, summaryDownload := none,
    transcriptDownload := none, saveCalled := false }

/-- One full script run of app.py with the generate button pressed: the
top section (lines 200–215) followed by the button handler (lines
217–264).  The local variables `video_id` and `metadata` are assigned
only on the paths that assign them in the script (an unassigned variable
read raises `NameError`); unpacking the bare `None` return of
`extract_transcript_details` raises `TypeError` (line 219); Python
truthiness is used where the script tests a value (`if transcript_text:`,
`if summary:`, `if save_to_file and metadata:`, `if formatted_transcript:`). -/
def runApp (youtube_link summary_type : String) (save_to_file : Bool)
    (w : World) : Except PyExc UIState :=
  let videoIdVar : Option (Option String) :=
    if youtube_link = "" then none else some (extract_video_id youtube_link)
  let metaStep : List Message × Option (Option VideoMetadata) :=
    match videoIdVar with
    | some (some _) =>
        ((extract_video_metadata w).1, some (extract_video_metadata w).2)
    | _ => ([], none)
  let tr := extract_transcript_details youtube_link w
  let msgs₁ := metaStep.1 ++ tr.1
  match tr.2 with
  | none =>
      Except.error (PyExc.typeError "cannot unpack non-iterable NoneType object")
  | some (transcript_text, formatted_transcript) =>
      match transcript_text with
      | none => Except.ok (noSummaryState msgs₁)
      | some t =>
          if t = "" then Except.ok (noSummaryState msgs₁)
          else
            let g := generate_gemini_content t detailedTemplate summary_type w
            match g.2 with
            | none => Except.ok (noSummaryState (msgs₁ ++ g.1))
            | some summary =>
                if summary = "" then Except.ok (noSummaryState (msgs₁ ++ g.1))
                else
                  let saveStep : Except PyExc (List Message × Bool) :=
                    if save_to_file then
                      match metaStep.2 with
                      | none => Except.error (PyExc.nameError "metadata")
                      | some none => Except.ok ([], false)
                      | some (some m) =>
                          match videoIdVar with
                          | none => Except.error (PyExc.nameError "video_id")
                          | some vid =>
                              match save_summary summary (pyStr vid) m w with
                              | (ms, true) =>
                                  Except.ok
                                    (ms ++ [Message.success "Summary saved successfully!"],
                                     true)
                              | (ms, false) => Except.ok (ms, true)
                    else Except.ok ([], false)
                  match saveStep with
                  | Except.error e => Except.error e
                  | Except.ok (sMsgs, saveCalled) =>
                      match videoIdVar with
                      | none => Except.error (PyExc.nameError "video_id")
                      | some vid =>
                          Except.ok
                            { messages := msgs₁ ++ g.1 ++ sMsgs,
                              summaryShown := some summary,
                              summaryDownload :=
                                some ("summary_" ++ pyStr vid ++ ".txt", summary),
                              transcriptDownload :=
                                match formatted_transcript with
                                | none => none
                                | some rows =>
                                    if rows.isEmpty then none
                                    else
                                      some ("transcript_" ++ pyStr vid ++ ".txt",
                                            transcriptExport rows),
                              saveCalled := saveCalled }

/-- Concrete collaborator behaviour: empty transcript, metadata service
down. -/
def wEmpty : World :=
  { transcriptFetch := Except.ok [],
    metadataFetch := Except.error "offline",
    gemini := fun _ => Except.ok "S",
    saveWrite := Except.ok () }

/-- Concrete collaborator behaviour: two-segment transcript, metadata
service down, generation succeeding. -/
def wMetaDown : World :=
  { transcriptFetch := Except.ok [⟨5, "a"⟩, ⟨65, "b"⟩],
    metadataFetch := Except.error "HTTP 403",
    gemini := fun _ => Except.ok "SUMMARY",
    saveWrite := Except.ok () }

/-! ### Extractor lemmas -/

theorem grabN_append_ok (l rest : List Char)
    (hall : l.all isIdChar = true) :
    grabN l.length (l ++ rest) = some l := by
  induction l with
  | nil => rfl
  | cons c t ih =>
      simp only [List.all_cons, Bool.and_eq_true] at hall
      simp [grabN, hall.1, ih hall.2]

theorem grabN_append_bad (n : Nat) (p rest : List Char)
    (hbad : p.all isIdChar = false) (hlen : p.length ≤ n) :
    grabN n (p ++ rest) = none := by
  induction p generalizing n with
  | nil => simp at hbad
  | cons c t ih =>
      match n, hlen with
      | m + 1, hlen =>
        simp only [List.all_cons, Bool.and_eq_false_iff] at hbad
        cases hbad with
        | inl h => simp [grabN, h]
        | inr h =>
            by_cases hc : isIdChar c = true
            · simp [grabN, hc, ih m h (Nat.le_of_succ_le_succ hlen)]
            · simp [grabN, hc]

theorem grabN_some (n : Nat) (l r : List Char) (h : grabN n l = some r) :
    r.length = n ∧ r.all isIdChar = true ∧ ∃ t, r ++ t = l := by
  induction n generalizing l r with
  | zero =>
      simp [grabN] at h
      subst h
      exact ⟨rfl, rfl, l, rfl⟩
  | succ m ih =>
      match l with
      | [] => exact Option.noConfusion h
      | c :: rest =>
          by_cases hc : isIdChar c = true
          · simp only [grabN, hc, if_pos] at h
            match hr : grabN m rest with
            | none => rw [hr] at h; simp at h
            | some r' =>
                rw [hr] at h
                simp only [Option.map_some'] at h
                obtain ⟨h1, h2, t, h3⟩ := ih rest r' hr
                obtain rfl : c :: r' = r := by simpa using h
                exact ⟨by simp [h1], by simp [hc, h2], t, by simp [h3]⟩
          · simp [grabN, hc] at h

theorem matchHere_some (l r : List Char) (h : matchHere l = some r) :
    ∃ s, (∃ d, d ++ s = l) ∧ grabN 11 s = some r := by
  match l with
  | [] => simp [matchHere] at h
  | [c] =>
      by_cases hc : c = '/'
      · refine ⟨[], ⟨[c], rfl⟩, ?_⟩
        simpa [matchHere, hc] using h
      · simp [matchHere, hc] at h
  | c₁ :: c₂ :: rest =>
      by_cases hv : (c₁ = 'v' && c₂ = '=') = true
      · refine ⟨rest, ⟨[c₁, c₂], rfl⟩, ?_⟩
        simpa [matchHere, hv] using h
      · by_cases hs : c₁ = '/'
        · refine ⟨c₂ :: rest, ⟨[c₁], rfl⟩, ?_⟩
          simpa [matchHere, hv, hs] using h
        · simp [matchHere, hv, hs] at h

theorem searchFrom_some (l r : List Char) (h : searchFrom l = some r) :
    r.length = 11 ∧ r.all isIdChar = true ∧ ∃ d t, d ++ r ++ t = l := by
  induction l with
  | nil => simp [searchFrom] at h
  | cons c rest ih =>
      simp only [searchFrom] at h
      match hm : matchHere (c :: rest) with
      | some r' =>
          rw [hm] at h
          simp only [Option.orElse] at h
          obtain rfl : r' = r := by simpa using h
          obtain ⟨s, ⟨d, hd⟩, hg⟩ := matchHere_some _ _ hm
          obtain ⟨h1, h2, t, ht⟩ := grabN_some _ _ _ hg
          exact ⟨h1, h2, d, t, by rw [List.append_assoc, ht, hd]⟩
      | none =>
          rw [hm] at h
          simp only [Option.orElse] at h
          obtain ⟨h1, h2, d, t, hdt⟩ := ih h
          exact ⟨h1, h2, c :: d, t, by simp [hdt]⟩

theorem searchFrom_cons_of_none (c : Char) (l : List Char)
    (h : matchHere (c :: l) = none) :
    searchFrom (c :: l) = searchFrom l := by
  rw [searchFrom, h]; rfl

theorem searchFrom_cons_of_some (c : Char) (l r : List Char)
    (h : matchHere (c :: l) = some r) :
    searchFrom (c :: l) = some r := by
  rw [searchFrom, h]; rfl

/-- On a canonical watch URL `https://www.youtube.com/watch?v=<id><tail>`
with an 11-character id, the scan matches exactly at the `v=` and
returns the id. -/
theorem extract_watch_form (id q : String)
    (h11 : id.data.length = 11) (hall : id.data.all isIdChar = true) :
    extract_video_id ("https://www.youtube.com/watch?v=" ++ id ++ "&" ++ q)
      = some id := by
  obtain ⟨d⟩ := id
  simp only [String.data] at h11 hall
  have hgrab : grabN 11 (d ++ ('&' :: q.data)) = some d := by
    have h := grabN_append_ok d ('&' :: q.data) hall
    rwa [h11] at h
  have hm : matchHere ('v' :: '=' :: (d ++ ('&' :: q.data))) = some d := by
    rw [matchHere]
    simp [hgrab]
  have htrace : searchFrom
      ('h' :: 't' :: 't' :: 'p' :: 's' :: ':' :: '/' :: '/' :: 'w' :: 'w' ::
       'w' :: '.' :: 'y' :: 'o' :: 'u' :: 't' :: 'u' :: 'b' :: 'e' :: '.' ::
       'c' :: 'o' :: 'm' :: '/' :: 'w' :: 'a' :: 't' :: 'c' :: 'h' :: '?' ::
       'v' :: '=' :: (d ++ ('&' :: q.data))) = some d :=
    (searchFrom_cons_of_none _ _ (by rfl)).trans <|
    (searchFrom_cons_of_none _ _ (by rfl)).trans <|
    (searchFrom_cons_of_none _ _ (by rfl)).trans <|
    (searchFrom_cons_of_none _ _ (by rfl)).trans <|
    (searchFrom_cons_of_none _ _ (by rfl)).trans <|
    (searchFrom_cons_of_none _ _ (by rfl)).trans <|
    (searchFrom_cons_of_none _ _ (by rfl)).trans <|
    (searchFrom_cons_of_none _ _ (by rfl)).trans <|
    (searchFrom_cons_of_none _ _ (by rfl)).trans <|
    (searchFrom_cons_of_none _ _ (by rfl)).trans <|
    (searchFrom_cons_of_none _ _ (by rfl)).trans <|
    (searchFrom_cons_of_none _ _ (by rfl)).trans <|
    (searchFrom_cons_of_none _ _ (by rfl)).trans <|
    (searchFrom_cons_of_none _ _ (by rfl)).trans <|
    (searchFrom_cons_of_none _ _ (by rfl)).trans <|
    (searchFrom_cons_of_none _ _ (by rfl)).trans <|
    (searchFrom_cons_of_none _ _ (by rfl)).trans <|
    (searchFrom_cons_of_none _ _ (by rfl)).trans <|
    (searchFrom_cons_of_none _ _ (by rfl)).trans <|
    (searchFrom_cons_of_none _ _ (by rfl)).trans <|
    (searchFrom_cons_of_none _ _ (by rfl)).trans <|
    (searchFrom_cons_of_none _ _ (by rfl)).trans <|
    (searchFrom_cons_of_none _ _ (by rfl)).trans <|
    (searchFrom_cons_of_none _ _ (by rfl)).trans <|
    (searchFrom_cons_of_none _ _ (by rfl)).trans <|
    (searchFrom_cons_of_none _ _ (by rfl)).trans <|
    (searchFrom_cons_of_none _ _ (by rfl)).trans <|
    (searchFrom_cons_of_none _ _ (by rfl)).trans <|
    (searchFrom_cons_of_none _ _ (by rfl)).trans <|
    (searchFrom_cons_of_none _ _ (by rfl)).trans <|
    searchFrom_cons_of_some _ _ _ hm
  have hd : (("https://www.youtube.com/watch?v=" ++ { data := d } ++ "&" ++ q) : String).data
      = 'h' :: 't' :: 't' :: 'p' :: 's' :: ':' :: '/' :: '/' :: 'w' :: 'w' ::
        'w' :: '.' :: 'y' :: 'o' :: 'u' :: 't' :: 'u' :: 'b' :: 'e' :: '.' ::
        'c' :: 'o' :: 'm' :: '/' :: 'w' :: 'a' :: 't' :: 'c' :: 'h' :: '?' ::
        'v' :: '=' :: (d ++ ('&' :: q.data)) := by
    simp [String.data_append]
  unfold extract_video_id
  rw [hd, htrace]
  rfl

/-- On a canonical short-link URL `https://youtu.be/<id><tail>` with an
11-character id, the scan matches exactly at the final `/` and returns
the id. -/
theorem extract_short_form (id q : String)
    (h11 : id.data.length = 11) (hall : id.data.all isIdChar = true) :
    extract_video_id ("https://youtu.be/" ++ id ++ "?" ++ q) = some id := by
  obtain ⟨d⟩ := id
  simp only [String.data] at h11 hall
  obtain ⟨c, ids, rfl⟩ : ∃ c ids, d = c :: ids := by
    cases d with
    | nil => simp at h11
    | cons c ids => exact ⟨c, ids, rfl⟩
  have hgrab : grabN 11 (c :: (ids ++ ('?' :: q.data))) = some (c :: ids) := by
    have h := grabN_append_ok (c :: ids) ('?' :: q.data) hall
    rw [h11] at h
    simpa using h
  have hm : matchHere ('/' :: c :: (ids ++ ('?' :: q.data))) = some (c :: ids) := by
    rw [matchHere]
    simp [hgrab]
  have htrace : searchFrom
      ('h' :: 't' :: 't' :: 'p' :: 's' :: ':' :: '/' :: '/' :: 'y' :: 'o' ::
       'u' :: 't' :: 'u' :: '.' :: 'b' :: 'e' :: '/' ::
       (c :: (ids ++ ('?' :: q.data)))) = some (c :: ids) :=
    (searchFrom_cons_of_none _ _ (by rfl)).trans <|
    (searchFrom_cons_of_none _ _ (by rfl)).trans <|
    (searchFrom_cons_of_none _ _ (by rfl)).trans <|
    (searchFrom_cons_of_none _ _ (by rfl)).trans <|
    (searchFrom_cons_of_none _ _ (by rfl)).trans <|
    (searchFrom_cons_of_none _ _ (by rfl)).trans <|
    (searchFrom_cons_of_none _ _ (by rfl)).trans <|
    (searchFrom_cons_of_none _ _ (by rfl)).trans <|
    (searchFrom_cons_of_none _ _ (by rfl)).trans <|
    (searchFrom_cons_of_none _ _ (by rfl)).trans <|
    (searchFrom_cons_of_none _ _ (by rfl)).trans <|
    (searchFrom_cons_of_none _ _ (by rfl)).trans <|
    (searchFrom_cons_of_none _ _ (by rfl)).trans <|
    (searchFrom_cons_of_none _ _ (by rfl)).trans <|
    (searchFrom_cons_of_none _ _ (by rfl)).trans <|
    (searchFrom_cons_of_none _ _ (by rfl)).trans <|
    searchFrom_cons_of_some _ _ _ hm
  have hd : (("https://youtu.be/" ++ { data := c :: ids } ++ "?" ++ q) : String).data
      = 'h' :: 't' :: 't' :: 'p' :: 's' :: ':' :: '/' :: '/' :: 'y' :: 'o' ::
        'u' :: 't' :: 'u' :: '.' :: 'b' :: 'e' :: '/' ::
        (c :: (ids ++ ('?' :: q.data))) := by
    simp [String.data_append]
  unfold extract_video_id
  rw [hd, htrace]
  rfl

/-- C2, counterexample to the claim as stated: a URL that does contain
the watch form `watch?v=BBBBBBBBBBB&extra=1`, yet on which
`extract_video_id` does not return that watch-form identifier, because
an earlier path segment of the URL already matches `/` followed by 11
id-alphabet characters and `re.search` takes the leftmost match. -/
theorem claim_C2_counterexample :
    extract_video_id "http://e.vv/AAAAAAAAAAA/watch?v=BBBBBBBBBBB&extra=1"
      = some "AAAAAAAAAAA" ∧
    extract_video_id "http://e.vv/AAAAAAAAAAA/watch?v=BBBBBBBBBBB&extra=1"
      ≠ some "BBBBBBBBBBB" := by
  decide

/-- C2 (amended): for every 11-character identifier `id` over the class
`[0-9A-Za-z_-]` and every query-string remainder `q`, on the canonical
watch-form URL `https://www.youtube.com/watch?v=id&q` and the canonical
short-link URL `https://youtu.be/id?q` — i.e. URLs whose part before the
identifier contains no earlier `v=`-or-`/`-preceded run of 11 id
characters — `extract_video_id` returns exactly `id`, with no
query-string characters appended. -/
theorem claim_C2 (id q : String)
    (h11 : id.data.length = 11) (hall : id.data.all isIdChar = true) :
    extract_video_id ("https://www.youtube.com/watch?v=" ++ id ++ "&" ++ q)
      = some id ∧
    extract_video_id ("https://youtu.be/" ++ id ++ "?" ++ q) = some id :=
  ⟨extract_watch_form id q h11 hall, extract_short_form id q h11 hall⟩

/-- C2 witness: the two concrete URLs of the spec. -/
theorem claim_C2_witness :
    extract_video_id ("https://www.youtube.com/watch?v=" ++ "ABCDEFGHIJK" ++ "&" ++ "extra=1")
      = some "ABCDEFGHIJK" ∧
    extract_video_id ("https://youtu.be/" ++ "ABCDEFGHIJK" ++ "?" ++ "t=30")
      = some "ABCDEFGHIJK" :=
  ⟨(claim_C2 "ABCDEFGHIJK" "extra=1" (by decide) (by decide)).1,
   (claim_C2 "ABCDEFGHIJK" "t=30" (by decide) (by decide)).2⟩

/-- C3: `extract_video_id` is a total function (the Python `try/except`
wrapper is dead code, `re.search` cannot raise on a string input, so the
embedding never raises); whenever it returns an identifier, that
identifier is exactly 11 characters long, drawn from `[0-9A-Za-z_-]`,
and occurs contiguously in the input; and when the input has no such
11-character substring at all, it returns `none`. -/
theorem claim_C3 (s : String) :
    (∀ id, extract_video_id s = some id →
      id.data.length = 11 ∧ id.data.all isIdChar = true ∧
      ∃ d t, d ++ id.data ++ t = s.data) ∧
    ((¬ ∃ tok : List Char, tok.length = 11 ∧ tok.all isIdChar = true ∧
        ∃ d t, d ++ tok ++ t = s.data) → extract_video_id s = none) := by
  constructor
  · intro id h
    unfold extract_video_id at h
    match hs : searchFrom s.data with
    | none => rw [hs] at h; exact Option.noConfusion h
    | some l =>
        rw [hs] at h
        simp only [Option.map_some'] at h
        obtain ⟨h1, h2, d, t, hdt⟩ := searchFrom_some _ _ hs
        obtain rfl : String.mk l = id := by simpa using h
        exact ⟨h1, h2, d, t, hdt⟩
  · intro hno
    match hs : searchFrom s.data with
    | none => unfold extract_video_id; rw [hs]; rfl
    | some l =>
        obtain ⟨h1, h2, d, t, hdt⟩ := searchFrom_some _ _ hs
        exact absurd ⟨l, h1, h2, d, t, hdt⟩ hno

/-- C3 witness: a concrete short-link URL on which the returned
identifier is an 11-character id-alphabet substring of the input. -/
theorem claim_C3_witness :
    ("dQw4w9WgXcQ" : String).data.length = 11 ∧
    ("dQw4w9WgXcQ" : String).data.all isIdChar = true ∧
    ∃ d t, d ++ ("dQw4w9WgXcQ" : String).data ++ t
      = ("https://youtu.be/dQw4w9WgXcQ?t=30" : String).data :=
  (claim_C3 "https://youtu.be/dQw4w9WgXcQ?t=30").1 "dQw4w9WgXcQ" (by decide)

/-! ### Formatter lemmas -/

theorem intercalate_go_eq (s : String) (as : List String) (acc : String) :
    String.intercalate.go acc s as = joinSep s (acc :: as) := by
  induction as generalizing acc with
  | nil => rfl
  | cons a tail ih =>
      rw [String.intercalate.go, ih]
      cases tail with
      | nil => simp [joinSep, String.append_assoc]
      | cons b bs => simp [joinSep, String.append_assoc]

/-- Lean's `String.intercalate` (the embedding of Python `sep.join`)
agrees with the spec-side recursion `joinSep`. -/
theorem intercalate_eq_joinSep (s : String) (l : List String) :
    String.intercalate s l = joinSep s l := by
  cases l with
  | nil => rfl
  | cons a as => rw [String.intercalate, intercalate_go_eq]

theorem foldl_append_eq_map {α β : Type} (f : α → β) (l : List α) (acc : List β) :
    l.foldl (fun a x => a ++ [f x]) acc = acc ++ l.map f := by
  induction l generalizing acc with
  | nil => simp
  | cons x t ih => simp [List.foldl_cons, ih]

/-- The appending loop of app.py lines 111–121 produces exactly one row
per segment, in input order. -/
theorem formatTranscript_eq_map (segs : List TranscriptSegment) :
    formatTranscript segs
      = segs.map (fun s => { timestamp := timestampOf s.start, text := s.text }) := by
  unfold formatTranscript
  rw [foldl_append_eq_map]
  rfl

theorem pad2_length_two : ∀ n < 60, (pad2 n).length = 2 := by decide

/-- C4: for the empty segment sequence the formatter yields empty
flattened text, an empty row list and an empty export string, and
`extract_transcript_details` treats this as a success (no message, the
normal success pair is returned), not as an error. -/
theorem claim_C4 (url : String) (w : World)
    (hid : (extract_video_id url).isSome = true)
    (hfetch : w.transcriptFetch = Except.ok []) :
    extract_transcript_details url w = ([], some (some "", some [])) ∧
    fullTranscript [] = "" ∧ formatTranscript [] = [] ∧
    transcriptExport (formatTranscript []) = "" := by
  obtain ⟨vid, hvid⟩ := Option.isSome_iff_exists.mp hid
  refine ⟨?_, rfl, rfl, rfl⟩
  unfold extract_transcript_details
  rw [hvid, hfetch]
  rfl

/-- C4 witness: a concrete URL and a world whose transcript service
returns the empty segment sequence. -/
theorem claim_C4_witness :
    extract_transcript_details "https://youtu.be/dQw4w9WgXcQ" wEmpty
      = ([], some (some "", some [])) ∧
    fullTranscript [] = "" ∧ formatTranscript [] = [] ∧
    transcriptExport (formatTranscript []) = "" :=
  claim_C4 "https://youtu.be/dQw4w9WgXcQ" wEmpty (by decide) rfl

/-- C5: the formatter produces exactly one display row per input
segment, in input order, with minutes `start // 60` and seconds
`start % 60` each rendered by the two-digit zero-padding format; the
export string is the rows rendered `timestamp: text` and joined by
newlines; on `[{start 5, "a"}, {start 65, "b"}]` the rows are
`("00:05","a")`, `("01:05","b")` and the export string is
`"00:05: a\n01:05: b"`. -/
theorem claim_C5 (segs : List TranscriptSegment) :
    formatTranscript segs
      = segs.map (fun s =>
          { timestamp := pad2 (s.start / 60) ++ ":" ++ pad2 (s.start % 60),
            text := s.text }) ∧
    transcriptExport (formatTranscript segs)
      = joinSep "\n" (segs.map (fun s =>
          (pad2 (s.start / 60) ++ ":" ++ pad2 (s.start % 60)) ++ ": " ++ s.text)) ∧
    formatTranscript [⟨5, "a"⟩, ⟨65, "b"⟩]
      = [⟨"00:05", "a"⟩, ⟨"01:05", "b"⟩] ∧
    transcriptExport (formatTranscript [⟨5, "a"⟩, ⟨65, "b"⟩]) = "00:05: a\n01:05: b" := by
  refine ⟨formatTranscript_eq_map segs, ?_, by decide, by decide⟩
  rw [formatTranscript_eq_map, transcriptExport, intercalate_eq_joinSep,
    List.map_map]
  rfl

/-- C6: the flattened text is the segment texts joined with single
spaces in the original order, nothing trimmed; for the two-segment
example it is exactly `"a b"`. -/
theorem claim_C6 (segs : List TranscriptSegment) :
    fullTranscript segs = joinSep " " (segs.map (·.text)) ∧
    fullTranscript [⟨5, "a"⟩, ⟨65, "b"⟩] = "a b" :=
  ⟨intercalate_eq_joinSep _ _, by decide⟩

/-- C7: for mode `quick` the prompt is the fixed 2–3-sentence
instruction with the transcript appended verbatim at the end (the
transcript is a suffix of the prompt), and for any mode other than
`quick` and `chapter` the prompt is the detailed template followed by
the verbatim transcript. -/
theorem claim_C7 (t mode : String) :
    buildPrompt t detailedTemplate "quick" = quickInstruction ++ t ∧
    t.data <:+ (buildPrompt t detailedTemplate "quick").data ∧
    (mode ≠ "quick" → mode ≠ "chapter" →
      buildPrompt t detailedTemplate mode = detailedTemplate ++ t) := by
  have hq : buildPrompt t detailedTemplate "quick" = quickInstruction ++ t := by
    simp [buildPrompt]
  refine ⟨hq, ⟨quickInstruction.data, ?_⟩, ?_⟩
  · rw [hq]
    simp [String.data_append]
  · intro h1 h2
    simp [buildPrompt, h1, h2]

/-- C7 witness: concrete transcript text and the unrecognized mode
`"bogus"`. -/
theorem claim_C7_witness :
    buildPrompt "T" detailedTemplate "quick" = quickInstruction ++ "T" ∧
    ("T" : String).data <:+ (buildPrompt "T" detailedTemplate "quick").data ∧
    buildPrompt "T" detailedTemplate "bogus" = detailedTemplate ++ "T" :=
  ⟨(claim_C7 "T" "bogus").1, (claim_C7 "T" "bogus").2.1,
   (claim_C7 "T" "bogus").2.2 (by decide) (by decide)⟩

/-- C10: the seconds field of a rendered timestamp is `start % 60`,
hence in 0–59, and is always exactly two characters; the minutes field
is the full quotient `start // 60` with no hour roll-over, so 3665
seconds renders as `"61:05"`. -/
theorem claim_C10 (start_time : Nat) :
    timestampOf start_time
      = pad2 (start_time / 60) ++ ":" ++ pad2 (start_time % 60) ∧
    start_time % 60 < 60 ∧
    (pad2 (start_time % 60)).length = 2 ∧
    timestampOf 3665 = "61:05" :=
  ⟨rfl, Nat.mod_lt _ (by decide),
   pad2_length_two _ (Nat.mod_lt _ (by decide)), by decide⟩

/-- C1 fails on the code: when identifier extraction fails inside
`extract_transcript_details`, the function returns a bare `None`
(app.py line 93) although its own `except` clause returns the pair
`(None, None)` precisely so that the caller's unpacking works; the
button handler then unpacks it (`transcript_text, formatted_transcript
= ...`, line 219) and raises an uncaught `TypeError` that escapes the
handler — the error was shown, but an exception still propagates past
the step's caller.  Evaluation of the model at such an input: for every
world, pressing generate on a URL with no extractable identifier makes
the whole run end in the uncaught `TypeError`. -/
theorem claim_C1 (w : World) :
    runApp "not a url" "detailed" false w
      = Except.error (PyExc.typeError "cannot unpack non-iterable NoneType object") := by
  have h : extract_video_id "not a url" = none := by decide
  simp [runApp, extract_transcript_details, h]

/-- C8: a failed metadata fetch does not stop the pipeline: when the
transcript fetch succeeds with a non-empty flattened text and the
summarizer succeeds with non-empty output, the run completes normally,
shows the summary, and offers both the summary download and the
transcript download (only the metadata warning is displayed, and the
save-to-file branch is skipped without error whatever the checkbox
state). -/
theorem claim_C8 (link summary_type : String) (save_to_file : Bool) (w : World)
    (vid e sumText : String) (segs : List TranscriptSegment)
    (hvid : extract_video_id link = some vid)
    (hmeta : w.metadataFetch = Except.error e)
    (htr : w.transcriptFetch = Except.ok segs)
    (hfull : fullTranscript segs ≠ "")
    (hgem : w.gemini (buildPrompt (fullTranscript segs) detailedTemplate summary_type)
      = Except.ok sumText)
    (hsum : sumText ≠ "") :
    runApp link summary_type save_to_file w
      = Except.ok
          { messages := [Message.warning ("Could not fetch video metadata: " ++ e)],
            summaryShown := some sumText,
            summaryDownload := some ("summary_" ++ vid ++ ".txt", sumText),
            transcriptDownload :=
              some ("transcript_" ++ vid ++ ".txt",
                    transcriptExport (formatTranscript segs)),
            saveCalled := false } := by
  have hlink : ¬ (link = "") := by
    intro h
    subst h
    rw [show extract_video_id "" = none from rfl] at hvid
    exact Option.noConfusion hvid
  obtain ⟨s₀, rest, rfl⟩ : ∃ s₀ rest, segs = s₀ :: rest := by
    cases segs with
    | nil => exact absurd rfl hfull
    | cons s₀ rest => exact ⟨s₀, rest, rfl⟩
  have hrows : (formatTranscript (s₀ :: rest)).isEmpty = false := by
    rw [formatTranscript_eq_map]
    rfl
  cases save_to_file with
  | false =>
      simp [runApp, extract_transcript_details, extract_video_metadata,
        generate_gemini_content, hvid, hmeta, htr, hgem, hlink, hfull, hsum,
        hrows, pyStr]
  | true =>
      simp [runApp, extract_transcript_details, extract_video_metadata,
        generate_gemini_content, hvid, hmeta, htr, hgem, hlink, hfull, hsum,
        hrows, pyStr]

/-- C8 witness: concrete URL, metadata service down, two-segment
transcript, successful generation, save checkbox enabled. -/
theorem claim_C8_witness :
    runApp "https://youtu.be/dQw4w9WgXcQ" "detailed" true wMetaDown
      = Except.ok
          { messages := [Message.warning "Could not fetch video metadata: HTTP 403"],
            summaryShown := some "SUMMARY",
            summaryDownload := some ("summary_dQw4w9WgXcQ.txt", "SUMMARY"),
            transcriptDownload :=
              some ("transcript_dQw4w9WgXcQ.txt", "00:05: a\n01:05: b"),
            saveCalled := false } :=
  claim_C8 "https://youtu.be/dQw4w9WgXcQ" "detailed" true wMetaDown
    "dQw4w9WgXcQ" "HTTP 403" "SUMMARY" [⟨5, "a"⟩, ⟨65, "b"⟩]
    (by decide) rfl rfl (by decide) rfl (by decide)

/-- C9: a row is appended to the summaries log only when the metadata
fetch succeeded: in every run whose metadata fetch fails, no matter the
inputs and the save-to-file checkbox, `save_summary` is never invoked
(`saveCalled = false` in every normally-completed state). -/
theorem claim_C9 (link summary_type : String) (save_to_file : Bool) (w : World)
    (e : String) (ui : UIState)
    (hmeta : w.metadataFetch = Except.error e)
    (hrun : runApp link summary_type save_to_file w = Except.ok ui) :
    ui.saveCalled = false := by
  by_cases hl : link = ""
  · subst hl
    simp [runApp, extract_transcript_details,
      show extract_video_id "" = none from rfl] at hrun
  · match hvid : extract_video_id link with
    | none =>
        simp [runApp, extract_transcript_details, hl, hvid] at hrun
    | some vid =>
        match htr : w.transcriptFetch with
        | Except.error e' =>
            simp [runApp, extract_transcript_details, extract_video_metadata,
              hl, hvid, hmeta, htr] at hrun
            rw [← hrun]
            rfl
        | Except.ok segs =>
            by_cases hfe : fullTranscript segs = ""
            · simp [runApp, extract_transcript_details, extract_video_metadata,
                hl, hvid, hmeta, htr, hfe] at hrun
              rw [← hrun]
              rfl
            · match hg : w.gemini (buildPrompt (fullTranscript segs)
                  detailedTemplate summary_type) with
              | Except.error eg =>
                  simp [runApp, extract_transcript_details, extract_video_metadata,
                    generate_gemini_content, hl, hvid, hmeta, htr, hfe, hg] at hrun
                  rw [← hrun]
                  rfl
              | Except.ok sumText =>
                  by_cases hse : sumText = ""
                  · simp [runApp, extract_transcript_details, extract_video_metadata,
                      generate_gemini_content, hl, hvid, hmeta, htr, hfe, hg, hse] at hrun
                    rw [← hrun]
                    rfl
                  · cases save_to_file with
                    | false =>
                        simp [runApp, extract_transcript_details, extract_video_metadata,
                          generate_gemini_content, hl, hvid, hmeta, htr, hfe, hg, hse] at hrun
                        rw [← hrun]
                    | true =>
                        simp [runApp, extract_transcript_details, extract_video_metadata,
                          generate_gemini_content, hl, hvid, hmeta, htr, hfe, hg, hse] at hrun
                        rw [← hrun]

/-- C9 witness: the metadata-down world with the save checkbox enabled;
the completed state has `saveCalled = false`. -/
theorem claim_C9_witness :
    ({ messages := [Message.warning "Could not fetch video metadata: HTTP 403"],
       summaryShown := some "SUMMARY",
       summaryDownload := some ("summary_dQw4w9WgXcQ.txt", "SUMMARY"),
       transcriptDownload :=
         some ("transcript_dQw4w9WgXcQ.txt", "00:05: a\n01:05: b"),
       saveCalled := false } : UIState).saveCalled = false :=
  claim_C9 "https://youtu.be/dQw4w9WgXcQ" "detailed" true wMetaDown
    "HTTP 403" _ rfl rfl

end YTSum
